import Mathlib

/-!
Verification of the geospatialTracker geofence engine spec against the
server source (`registerRoutes` and the point-in-geofence helpers in the
routes module, `DatabaseStorage` in `server/storage.ts`, and the zod insert
schemas in `shared/schema.ts`).

Numeric convention of the embedding: JavaScript double values that the
source only adds, subtracts, multiplies, divides and compares (coordinates,
timestamps, battery levels) are modelled as exact rationals `ℚ`; the
haversine distance, which uses transcendental functions, is modelled over
`ℝ`. Timestamps are rationals counting seconds.
-/

namespace GeoTracker

/-- A latitude/longitude pair, the `{ lat, lng }` point record taken by
`isPointInGeofence` and `getDistance` in the routes module. -/
structure LatLng where
  lat : ℚ
  lng : ℚ
deriving DecidableEq, Repr

/-- Degrees to radians, embedding `toRad` : `deg * (Math.PI / 180)`. -/
noncomputable def toRad (deg : ℝ) : ℝ := deg * (Real.pi / 180)

/-- The two-argument arctangent `Math.atan2(y, x)`, modelled as the
argument of the complex number `x + y i` (same principal value). -/
noncomputable def atan2 (y x : ℝ) : ℝ := Complex.arg ⟨x, y⟩

/-- Haversine great-circle distance in meters, embedding `getDistance`
from the routes module (Earth radius 6 371 000 m). -/
noncomputable def getDistance (point1 point2 : LatLng) : ℝ :=
  let R : ℝ := 6371000
  let dLat := toRad ((point2.lat : ℝ) - (point1.lat : ℝ))
  let dLon := toRad ((point2.lng : ℝ) - (point1.lng : ℝ))
  let lat1 := toRad (point1.lat : ℝ)
  let lat2 := toRad (point2.lat : ℝ)
  let a := Real.sin (dLat / 2) * Real.sin (dLat / 2) +
    Real.sin (dLon / 2) * Real.sin (dLon / 2) * Real.cos lat1 * Real.cos lat2
  let c := 2 * atan2 (Real.sqrt a) (Real.sqrt (1 - a))
  R * c

/-- One iteration of the ray-casting loop body in `isPointInGeofence`.
`vi` is `coordinates[i]` and `vj` is `coordinates[j]`, both GeoJSON
`[lng, lat]` pairs; the source reads `xi = coordinates[i][1]` (the
latitude) and `yi = coordinates[i][0]` (the longitude) and tests
`((yi > point.lat) !== (yj > point.lat)) &&
 (point.lng < (xj - xi) * (point.lat - yi) / (yj - yi) + xi)`. -/
def rayCastToggle (pLat pLng : ℚ) (vi vj : ℚ × ℚ) : Bool :=
  let xi := vi.2
  let yi := vi.1
  let xj := vj.2
  let yj := vj.1
  (decide (yi > pLat) != decide (yj > pLat)) &&
    decide (pLng < (xj - xi) * (pLat - yi) / (yj - yi) + xi)

/-- The `for (let i = 0, j = coordinates.length - 1; i < coordinates.length;
j = i++)` ray-casting loop of `isPointInGeofence`, folded over the list of
`(coordinates[i], coordinates[j])` pairs with `inside` starting `false`. -/
def pointInRing (pLat pLng : ℚ) (ring : List (ℚ × ℚ)) : Bool :=
  let prevs : List (ℚ × ℚ) :=
    match ring.getLast? with
    | none => []
    | some v => v :: ring.dropLast
  (ring.zip prevs).foldl
    (fun inside e => if rayCastToggle pLat pLng e.1 e.2 then !inside else inside)
    false

/-- The geofence geometry stored in the `coordinates` jsonb column, as the
routes module reads it: a GeoJSON `Polygon` (of which only the first ring
`coordinates[0]`, a list of `[lng, lat]` pairs, is consulted), a GeoJSON
`Point` with center `[lng, lat]` and a `radius` property, or any other
shape (which matches neither `type` test). -/
inductive GeoShape where
  | polygon (ring : List (ℚ × ℚ))
  | circle (center : ℚ × ℚ) (radius : ℚ)
  | other
deriving DecidableEq

/-- Embedding of `isPointInGeofence` from the routes module. The circle
branch is guarded by the JavaScript truthiness of `geofence.radius`
(false exactly when the radius is 0), and any unrecognized shape falls
through to `return false`. -/
noncomputable def isPointInGeofence (point : LatLng) (geofence : GeoShape) : Bool :=
  match geofence with
  | .polygon ring => pointInRing point.lat point.lng ring
  | .circle c r =>
      decide (r ≠ 0) &&
        decide (getDistance point ⟨c.2, c.1⟩ ≤ (r : ℝ))
  | .other => false

/-- Follows the spec's words (§4.1 Geometry Evaluator): the standard
ray-casting even-odd parity test with longitude consistently used as the
planar x axis and latitude as the y axis, for the test point and the ring
vertices alike.  The ring entries are GeoJSON `[lng, lat]` pairs, so here
`xi = vi.1` (the longitude) and `yi = vi.2` (the latitude). -/
def rayCastToggleSpec (pLat pLng : ℚ) (vi vj : ℚ × ℚ) : Bool :=
  let xi := vi.1
  let yi := vi.2
  let xj := vj.1
  let yj := vj.2
  (decide (yi > pLat) != decide (yj > pLat)) &&
    decide (pLng < (xj - xi) * (pLat - yi) / (yj - yi) + xi)

/-- Follows the spec's words (§4.1): the ray-casting parity loop with the
axes used consistently, over the same `(coordinates[i], coordinates[j])`
pair sequence as the source loop. -/
def pointInRingSpec (pLat pLng : ℚ) (ring : List (ℚ × ℚ)) : Bool :=
  let prevs : List (ℚ × ℚ) :=
    match ring.getLast? with
    | none => []
    | some v => v :: ring.dropLast
  (ring.zip prevs).foldl
    (fun inside e => if rayCastToggleSpec pLat pLng e.1 e.2 then !inside else inside)
    false

/-! ## Server state model

The rows of the tables in `shared/schema.ts` that the verified routes
touch, and the mutable server state they act on.  Database `decimal`
columns (stored as decimal strings, parsed with `parseFloat` before use)
are modelled by their rational values; `timestamp` columns by rational
seconds. -/

/-- A row of the `locations` table (`shared/schema.ts`). -/
structure LocationRow where
  deviceId : ℤ
  latitude : ℚ
  longitude : ℚ
  accuracy : Option ℤ
  timestamp : ℚ
  isOfflineRecord : Bool
  syncedAt : Option ℚ
deriving DecidableEq, Repr

/-- A row of the `geofence_events` table (`shared/schema.ts`). -/
structure EventRow where
  deviceId : ℤ
  geofenceId : ℤ
  eventType : String
  latitude : ℚ
  longitude : ℚ
  timestamp : ℚ
  duration : Option ℤ
deriving DecidableEq, Repr

/-- The part of a `geofences` row that the location routes read. -/
structure GeofenceRow where
  id : ℤ
  coordinates : GeoShape
  isActive : Bool
  expiresAt : Option ℚ
deriving DecidableEq

/-- The part of a `devices` row that the verified routes touch. -/
structure DeviceRow where
  id : ℤ
  batteryLevel : Option ℚ
  lastSeen : Option ℚ
deriving DecidableEq, Repr

/-- The database tables the verified routes read and write. -/
structure ServerState where
  devices : List DeviceRow
  geofences : List GeofenceRow
  locations : List LocationRow
  events : List EventRow
deriving DecidableEq

/-- An incoming JSON body for a location report, before validation.
`none` models an absent (or wrongly-typed) field. -/
structure RawLocation where
  deviceId : Option ℤ
  latitude : Option ℚ
  longitude : Option ℚ
  accuracy : Option ℤ
  isOfflineRecord : Option Bool
deriving DecidableEq

/-- A location report accepted by `insertLocationSchema`. -/
structure InsertLocation where
  deviceId : ℤ
  latitude : ℚ
  longitude : ℚ
  accuracy : Option ℤ
  isOfflineRecord : Bool
deriving DecidableEq

/-- Embedding of `insertLocationSchema.parse` (`shared/schema.ts`): the
schema generated from the `locations` table with `id`, `timestamp` and
`syncedAt` omitted.  It requires `deviceId`, `latitude` and `longitude`
to be present (`notNull` columns without defaults), treats `accuracy` as
optional and defaults `isOfflineRecord` to `false`.  The generated schema
checks only types and presence: latitude and longitude are decimal
strings and no numeric range is enforced. -/
def parseInsertLocation (raw : RawLocation) : Option InsertLocation :=
  match raw.deviceId, raw.latitude, raw.longitude with
  | some d, some la, some ln =>
      some ⟨d, la, ln, raw.accuracy, raw.isOfflineRecord.getD false⟩
  | _, _, _ => none

/-- The HTTP outcome of a route call, as far as the claims need it:
`ok` is the 200 `res.json(...)` path, `badRequest` the 400 path. -/
inductive ApiResult where
  | ok
  | badRequest
deriving DecidableEq, Repr

/-- Embedding of `DatabaseStorage.getActiveGeofences`: geofences with
`isActive` and `expires_at IS NULL OR expires_at > NOW()`. -/
def getActiveGeofences (now : ℚ) (st : ServerState) : List GeofenceRow :=
  st.geofences.filter fun g =>
    g.isActive && match g.expiresAt with
      | none => true
      | some t => decide (now < t)

/-- Embedding of the `POST /api/locations` handler in `registerRoutes`:
parse the body with `insertLocationSchema` (a `ZodError` returns 400 and
changes nothing), insert the location row (`timestamp` filled by the
database `defaultNow()`, modelled by `now`), update the device's
`lastSeen`, then for each active geofence containing the point append an
`entry` event (never an exit, with no duration and no membership-state
consultation). -/
noncomputable def postLocations (now : ℚ) (st : ServerState) (raw : RawLocation) :
    ApiResult × ServerState :=
  match parseInsertLocation raw with
  | none => (.badRequest, st)
  | some loc =>
    let newLoc : LocationRow :=
      ⟨loc.deviceId, loc.latitude, loc.longitude, loc.accuracy, now,
        loc.isOfflineRecord, none⟩
    let st1 := { st with locations := st.locations ++ [newLoc] }
    let st2 := { st1 with
      devices := st1.devices.map fun d =>
        if d.id = loc.deviceId then { d with lastSeen := some now } else d }
    let hits := (getActiveGeofences now st2).filter fun g =>
      isPointInGeofence ⟨loc.latitude, loc.longitude⟩ g.coordinates
    let newEvents : List EventRow := hits.map fun g =>
      ⟨loc.deviceId, g.id, "entry", loc.latitude, loc.longitude, now, none⟩
    (.ok, { st2 with events := st2.events ++ newEvents })

/-- Embedding of the `POST /api/locations/sync` handler together with
`DatabaseStorage.syncOfflineLocations`: parse the body with
`z.array(insertLocationSchema)` (any element failing returns 400 and
changes nothing), then bulk-insert all rows with `syncedAt` set.  No
geofence evaluation runs, no events are created, no `lastSeen` update and
no sorting by any timestamp happens on this path. -/
def postLocationsSync (now : ℚ) (st : ServerState) (raws : List RawLocation) :
    ApiResult × ServerState :=
  match raws.mapM parseInsertLocation with
  | none => (.badRequest, st)
  | some locs =>
    if locs.isEmpty then (.ok, st)
    else
      (.ok, { st with
        locations := st.locations ++ locs.map fun l =>
          ⟨l.deviceId, l.latitude, l.longitude, l.accuracy, now,
            l.isOfflineRecord, some now⟩ })

/-- Embedding of the `PUT /api/devices/:id/battery` handler together with
`DatabaseStorage.updateDeviceBattery`: reject with 400 unless
`batteryLevel` is a number in [0, 100] (`none` models a body whose
`batteryLevel` fails `typeof === 'number'`); otherwise set the matching
device's `batteryLevel` and stamp its `lastSeen` with the current time. -/
def putDeviceBattery (now : ℚ) (st : ServerState) (id : ℤ)
    (batteryLevel : Option ℚ) : ApiResult × ServerState :=
  match batteryLevel with
  | none => (.badRequest, st)
  | some lvl =>
    if lvl < 0 ∨ 100 < lvl then (.badRequest, st)
    else
      (.ok, { st with
        devices := st.devices.map fun d =>
          if d.id = id then { d with batteryLevel := some lvl, lastSeen := some now }
          else d })

/-- The `a` intermediate of `getDistance`, named so that lemmas can speak
about the haversine term without repeating it. -/
noncomputable def havA (point1 point2 : LatLng) : ℝ :=
  Real.sin (toRad ((point2.lat : ℝ) - (point1.lat : ℝ)) / 2) *
      Real.sin (toRad ((point2.lat : ℝ) - (point1.lat : ℝ)) / 2) +
    Real.sin (toRad ((point2.lng : ℝ) - (point1.lng : ℝ)) / 2) *
      Real.sin (toRad ((point2.lng : ℝ) - (point1.lng : ℝ)) / 2) *
      Real.cos (toRad (point1.lat : ℝ)) * Real.cos (toRad (point2.lat : ℝ))

/-! ## Concrete fixtures used by the counterexample evaluations -/

/-- A 10×10 square ring in GeoJSON `[lng, lat]` order, symmetric under the
lat/lng transposition so that the source's containment test agrees with
the intended geometry on it. -/
def sqRing : List (ℚ × ℚ) := [(0, 0), (10, 0), (10, 10), (0, 10)]

/-- An active, non-expiring polygon geofence over `sqRing`. -/
def sqFence : GeofenceRow := ⟨1, .polygon sqRing, true, none⟩

/-- A server with one device, the `sqFence` geofence, and empty location
and event tables. -/
def stSq : ServerState := ⟨[⟨1, none, none⟩], [sqFence], [], []⟩

/-- A report for device 1 at latitude 5, longitude 5 — inside `sqFence`. -/
def rawInside : RawLocation := ⟨some 1, some 5, some 5, none, none⟩

/-- A report for device 1 at latitude 20, longitude 20 — outside
`sqFence`. -/
def rawOutside : RawLocation := ⟨some 1, some 20, some 20, none, none⟩

/-- A 100×100 square ring in GeoJSON `[lng, lat]` order. -/
def bigRing : List (ℚ × ℚ) := [(0, 0), (100, 0), (100, 100), (0, 100)]

/-- A server with one device and one active geofence over `bigRing`. -/
def stBig : ServerState := ⟨[⟨1, none, none⟩], [⟨1, .polygon bigRing, true, none⟩], [], []⟩

/-- A report whose latitude 91 lies outside the valid ±90 range. -/
def rawLat91 : RawLocation := ⟨some 1, some 91, some 5, none, none⟩

/-- The rectangle ring [[0,0],[10,0],[10,1],[0,1]] in GeoJSON `[lng, lat]`
order: longitudes span 0..10, latitudes span 0..1.  It is not symmetric
under the lat/lng transposition, which separates the source's containment
test from the spec's. -/
def rectRing : List (ℚ × ℚ) := [(0, 0), (10, 0), (10, 1), (0, 1)]

/-! ## Helper lemmas about the geometry evaluator -/

theorem getDistance_eq (p1 p2 : LatLng) :
    getDistance p1 p2 =
      6371000 * (2 * atan2 (Real.sqrt (havA p1 p2)) (Real.sqrt (1 - havA p1 p2))) := rfl

theorem havA_self (p : LatLng) : havA p p = 0 := by
  simp [havA, toRad]

theorem havA_comm (p1 p2 : LatLng) : havA p1 p2 = havA p2 p1 := by
  have key : ∀ u v : ℝ, Real.sin ((u - v) * (Real.pi / 180) / 2) *
      Real.sin ((u - v) * (Real.pi / 180) / 2) =
      Real.sin ((v - u) * (Real.pi / 180) / 2) *
      Real.sin ((v - u) * (Real.pi / 180) / 2) := by
    intro u v
    have h : (u - v) * (Real.pi / 180) / 2 = -((v - u) * (Real.pi / 180) / 2) := by
      ring
    rw [h, Real.sin_neg]
    ring
  simp only [havA, toRad]
  rw [key ((p2.lat : ℝ)) ((p1.lat : ℝ)), key ((p2.lng : ℝ)) ((p1.lng : ℝ))]
  ring

theorem getDistance_self (p : LatLng) : getDistance p p = 0 := by
  rw [getDistance_eq, havA_self]
  have harg : atan2 (Real.sqrt 0) (Real.sqrt (1 - 0)) = 0 := by
    rw [Real.sqrt_zero]
    norm_num
    rw [atan2]
    have h1 : (⟨1, 0⟩ : ℂ) = 1 := by
      apply Complex.ext <;> simp
    rw [h1, Complex.arg_one]
  rw [harg]
  ring

theorem getDistance_nonneg (p1 p2 : LatLng) : 0 ≤ getDistance p1 p2 := by
  rw [getDistance_eq]
  have harg : 0 ≤ atan2 (Real.sqrt (havA p1 p2)) (Real.sqrt (1 - havA p1 p2)) := by
    rw [atan2]
    exact Complex.arg_nonneg_iff.mpr (Real.sqrt_nonneg _)
  positivity

theorem interpolation_symm (pLat : ℚ) (u v : ℚ × ℚ) (hne : u.1 ≠ v.1) :
    (v.2 - u.2) * (pLat - u.1) / (v.1 - u.1) + u.2 =
      (u.2 - v.2) * (pLat - v.1) / (u.1 - v.1) + v.2 := by
  have h1 : v.1 - u.1 ≠ 0 := sub_ne_zero.mpr (Ne.symm hne)
  have h2 : u.1 - v.1 ≠ 0 := sub_ne_zero.mpr hne
  field_simp
  ring

theorem rayCastToggle_symm (pLat pLng : ℚ) (u v : ℚ × ℚ) :
    rayCastToggle pLat pLng u v = rayCastToggle pLat pLng v u := by
  by_cases h1 : u.1 > pLat <;> by_cases h2 : v.1 > pLat
  · simp [rayCastToggle, h1, h2]
  · have hne : u.1 ≠ v.1 := by
      have hle : v.1 ≤ pLat := le_of_not_lt h2
      exact (lt_of_le_of_lt hle h1).ne'
    simp [rayCastToggle, h1, h2, interpolation_symm pLat u v hne]
  · have hne : u.1 ≠ v.1 := by
      have hle : u.1 ≤ pLat := le_of_not_lt h1
      exact (lt_of_le_of_lt hle h2).ne
    simp [rayCastToggle, h1, h2, interpolation_symm pLat u v hne]
  · simp [rayCastToggle, h1, h2]

theorem pointInRing_degenerate (pLat pLng : ℚ) (ring : List (ℚ × ℚ))
    (h : ring.length < 3) : pointInRing pLat pLng ring = false := by
  match ring with
  | [] => rfl
  | [v] => simp [pointInRing, rayCastToggle]
  | [v0, v1] =>
      have e : pointInRing pLat pLng [v0, v1] =
          (if rayCastToggle pLat pLng v1 v0 then
             !(if rayCastToggle pLat pLng v0 v1 then !false else false)
           else (if rayCastToggle pLat pLng v0 v1 then !false else false)) := rfl
      rw [e, rayCastToggle_symm pLat pLng v0 v1]
      cases rayCastToggle pLat pLng v1 v0 <;> rfl
  | v0 :: v1 :: v2 :: rest => simp at h; omega

theorem sq_contains_5_5 : isPointInGeofence ⟨5, 5⟩ (.polygon sqRing) = true := by
  show pointInRing 5 5 sqRing = true
  norm_num [pointInRing, rayCastToggle, sqRing, List.zip, List.zipWith, List.foldl,
    List.getLast?, List.dropLast]

theorem sq_not_contains_20_20 :
    isPointInGeofence ⟨20, 20⟩ (.polygon sqRing) = false := by
  show pointInRing 20 20 sqRing = false
  norm_num [pointInRing, rayCastToggle, sqRing, List.zip, List.zipWith, List.foldl,
    List.getLast?, List.dropLast]

theorem big_contains_91_5 : isPointInGeofence ⟨91, 5⟩ (.polygon bigRing) = true := by
  show pointInRing 91 5 bigRing = true
  norm_num [pointInRing, rayCastToggle, bigRing, List.zip, List.zipWith, List.foldl,
    List.getLast?, List.dropLast]

/-! ## Claim theorems -/

/-- C1: the live ingestion entry point does not alternate Entry/Exit.
Submitting two consecutive reports for device 1 inside the active square
geofence (at server times 0 and 1) appends two consecutive `entry` events
for the same (deviceId, geofenceId) pair — the second report leaves
membership unchanged yet still creates an event, and no Exit ever
separates the two, contradicting the claimed alternation invariant. -/
theorem live_ingestion_emits_consecutive_entry_events :
    ((postLocations 1 (postLocations 0 stSq rawInside).2 rawInside).2).events =
      [⟨1, 1, "entry", 5, 5, 0, none⟩, ⟨1, 1, "entry", 5, 5, 1, none⟩] := by
  simp [postLocations, parseInsertLocation, rawInside, stSq, sqFence,
    getActiveGeofences, sq_contains_5_5, List.filter]

/-- C2: ingestion is not idempotent.  Submitting the identical report
body twice (even at the same server timestamp 0) inserts two location
rows and creates the `entry` event twice: the second submission is not a
no-op, and no (deviceId, observedAt) deduplication exists anywhere on the
path — the insert schema does not even accept a client timestamp. -/
theorem duplicate_report_replay_not_deduplicated :
    ((postLocations 0 (postLocations 0 stSq rawInside).2 rawInside).2).locations.length = 2
    ∧ ((postLocations 0 (postLocations 0 stSq rawInside).2 rawInside).2).events =
      [⟨1, 1, "entry", 5, 5, 0, none⟩, ⟨1, 1, "entry", 5, 5, 0, none⟩] := by
  constructor <;>
    simp [postLocations, parseInsertLocation, rawInside, stSq, sqFence,
      getActiveGeofences, sq_contains_5_5, List.filter]

/-- C3: no Exit event is ever emitted.  A device that reported inside the
square geofence at time 0 and then outside at time 450 (7.5 minutes
later) ends with the event log still being the single Entry: the handler
only creates events for geofences the current point is inside, so the
claimed Exit with `durationMinutes = 7` is never produced. -/
theorem leaving_geofence_emits_no_exit_event :
    ((postLocations 450 (postLocations 0 stSq rawInside).2 rawOutside).2).events =
      [⟨1, 1, "entry", 5, 5, 0, none⟩] := by
  simp [postLocations, parseInsertLocation, rawInside, rawOutside, stSq, sqFence,
    getActiveGeofences, sq_contains_5_5, sq_not_contains_20_20, List.filter]

/-- C4: the batch path is not equivalent to the live path.  Submitting a
single in-geofence report through `POST /api/locations/sync` stores it
without any geofence evaluation and creates no event, while the same
report through `POST /api/locations` creates an `entry` event; the batch
path also performs no sort by any client timestamp. -/
theorem batch_sync_skips_geofence_evaluation :
    ((postLocationsSync 0 stSq [rawInside]).2).events = []
    ∧ ((postLocations 0 stSq rawInside).2).events = [⟨1, 1, "entry", 5, 5, 0, none⟩] := by
  constructor
  · rfl
  · simp [postLocations, parseInsertLocation, rawInside, stSq, sqFence,
      getActiveGeofences, sq_contains_5_5, List.filter]

/-- C5: for a circle geofence with positive radius the containment test
returns true exactly when the haversine distance (Earth radius
6 371 000 m) from the point to the center is at most the radius; the
exact center is always contained, and a point at distance radius + 1 m is
not. -/
theorem circle_containment_iff_haversine_within_radius (p : LatLng)
    (clng clat r : ℚ) (hr : 0 < r) :
    (isPointInGeofence p (.circle (clng, clat) r) = true ↔
      getDistance p ⟨clat, clng⟩ ≤ (r : ℝ))
    ∧ isPointInGeofence ⟨clat, clng⟩ (.circle (clng, clat) r) = true
    ∧ (getDistance p ⟨clat, clng⟩ = (r : ℝ) + 1 →
        isPointInGeofence p (.circle (clng, clat) r) = false) := by
  have hne : r ≠ 0 := hr.ne'
  refine ⟨?_, ?_, ?_⟩
  · simp [isPointInGeofence, hne]
  · have h0 : getDistance (⟨clat, clng⟩ : LatLng) ⟨clat, clng⟩ = 0 :=
      getDistance_self _
    simp [isPointInGeofence, hne, h0]
    exact_mod_cast hr.le
  · intro hd
    have hlt : ¬((r : ℝ) + 1 ≤ (r : ℝ)) := by linarith
    simp [isPointInGeofence, hne, hd, hlt]

/-- Witness for C5 at the concrete center (0, 0) with radius 1. -/
theorem circle_containment_iff_haversine_within_radius_witness :
    (0 : ℚ) < 1 ∧
    ((isPointInGeofence ⟨0, 0⟩ (.circle (0, 0) 1) = true ↔
        getDistance ⟨0, 0⟩ ⟨0, 0⟩ ≤ ((1 : ℚ) : ℝ))
      ∧ isPointInGeofence ⟨0, 0⟩ (.circle (0, 0) 1) = true
      ∧ (getDistance ⟨0, 0⟩ ⟨0, 0⟩ = ((1 : ℚ) : ℝ) + 1 →
          isPointInGeofence ⟨0, 0⟩ (.circle (0, 0) 1) = false)) :=
  ⟨one_pos, circle_containment_iff_haversine_within_radius ⟨0, 0⟩ 0 0 1 one_pos⟩

/-- C6: the polygon containment test does not use longitude and latitude
consistently as the two planar coordinates.  It reads each vertex's
latitude into the x role and longitude into the y role while keeping the
test point's longitude as x and latitude as y, so for the rectangle ring
[[0,0],[10,0],[10,1],[0,1]] (GeoJSON [lng, lat]) and the interior point
latitude 1/2, longitude 5 the source returns `false` although the
standard consistent even-odd parity test of the spec returns `true`. -/
theorem polygon_test_transposes_vertex_axes :
    isPointInGeofence ⟨1/2, 5⟩ (.polygon rectRing) = false
    ∧ pointInRingSpec (1/2) 5 rectRing = true := by
  constructor
  · show pointInRing (1/2) 5 rectRing = false
    norm_num [pointInRing, rayCastToggle, rectRing, List.zip, List.zipWith,
      List.foldl, List.getLast?, List.dropLast]
  · norm_num [pointInRingSpec, rayCastToggleSpec, rectRing, List.zip, List.zipWith,
      List.foldl, List.getLast?, List.dropLast]

/-- C7: the containment test is total on degenerate shapes: a polygon
ring with fewer than 3 vertices contains no point, and a circle with
radius at most 0 contains no point (radius 0 fails the JavaScript
truthiness guard; a negative radius loses to the nonnegative haversine
distance). -/
theorem degenerate_shapes_never_contain (p : LatLng) (ring : List (ℚ × ℚ))
    (c : ℚ × ℚ) (r : ℚ) (h3 : ring.length < 3) (hr : r ≤ 0) :
    isPointInGeofence p (.polygon ring) = false
    ∧ isPointInGeofence p (.circle c r) = false := by
  constructor
  · exact pointInRing_degenerate p.lat p.lng ring h3
  · rcases hr.lt_or_eq with h | h
    · have hd : ¬(getDistance p ⟨c.2, c.1⟩ ≤ (r : ℝ)) := by
        have h0 := getDistance_nonneg p ⟨c.2, c.1⟩
        have hrr : (r : ℝ) < 0 := by exact_mod_cast h
        linarith
      simp [isPointInGeofence, hd]
    · simp [isPointInGeofence, h]

/-- Witness for C7 at the empty ring and radius 0. -/
theorem degenerate_shapes_never_contain_witness :
    ([] : List (ℚ × ℚ)).length < 3 ∧ (0 : ℚ) ≤ 0 ∧
    (isPointInGeofence ⟨0, 0⟩ (.polygon []) = false
      ∧ isPointInGeofence ⟨0, 0⟩ (.circle (0, 0) 0) = false) :=
  ⟨by decide, le_refl 0,
    degenerate_shapes_never_contain ⟨0, 0⟩ [] (0, 0) 0 (by decide) (le_refl 0)⟩

/-- C8 counterexample: a report with latitude 91 (outside ±90) is not
rejected — the handler answers 200 and geofence evaluation runs, creating
an event, because `insertLocationSchema` validates only the presence and
string type of the coordinate fields, never their numeric range. -/
theorem out_of_range_latitude_reaches_evaluation :
    (postLocations 0 stBig rawLat91).1 = ApiResult.ok
    ∧ ((postLocations 0 stBig rawLat91).2).events = [⟨1, 1, "entry", 91, 5, 0, none⟩] := by
  constructor <;>
    simp [postLocations, parseInsertLocation, rawLat91, stBig,
      getActiveGeofences, big_contains_91_5, List.filter]

/-- C8 amended: a report missing `deviceId`, `latitude` or `longitude` is
rejected with 400 before any geofence evaluation and leaves the state
unchanged, but coordinate ranges are never validated: every report with
the three fields present is accepted (status 200) whatever the coordinate
values. -/
theorem missing_coordinates_rejected_range_unchecked (now : ℚ) (st : ServerState)
    (raw : RawLocation) :
    (raw.deviceId = none ∨ raw.latitude = none ∨ raw.longitude = none →
      postLocations now st raw = (ApiResult.badRequest, st))
    ∧ (raw.deviceId ≠ none → raw.latitude ≠ none → raw.longitude ≠ none →
      (postLocations now st raw).1 = ApiResult.ok) := by
  constructor
  · intro h
    cases hd : raw.deviceId <;> cases hl : raw.latitude <;> cases hn : raw.longitude <;>
      simp_all [postLocations, parseInsertLocation]
  · intro h1 h2 h3
    cases hd : raw.deviceId <;> cases hl : raw.latitude <;> cases hn : raw.longitude <;>
      simp_all [postLocations, parseInsertLocation]

/-- Witness for the amended C8: a body with no `deviceId` is rejected and
the state is untouched. -/
theorem missing_coordinates_rejected_range_unchecked_witness :
    postLocations 0 stSq ⟨none, some 5, some 5, none, none⟩ =
      (ApiResult.badRequest, stSq) :=
  (missing_coordinates_rejected_range_unchecked 0 stSq
    ⟨none, some 5, some 5, none, none⟩).1 (Or.inl rfl)

/-- C9: the battery endpoint answers 400 exactly when `batteryLevel` is
not a number or lies outside [0, 100], leaving the state unchanged in
that case; on every successful call it sets the matching device's
`batteryLevel` and stamps its `lastSeen` with the current time, leaving
all other devices untouched. -/
theorem battery_update_validation_and_effect (now : ℚ) (st : ServerState) (id : ℤ)
    (batteryLevel : Option ℚ) :
    ((putDeviceBattery now st id batteryLevel).1 = ApiResult.badRequest ↔
      (batteryLevel = none ∨ ∃ v, batteryLevel = some v ∧ (v < 0 ∨ 100 < v)))
    ∧ ((putDeviceBattery now st id batteryLevel).1 = ApiResult.badRequest →
        (putDeviceBattery now st id batteryLevel).2 = st)
    ∧ (∀ v, batteryLevel = some v → ¬(v < 0 ∨ 100 < v) →
        (putDeviceBattery now st id batteryLevel).2 =
          { st with devices := st.devices.map fun d =>
              if d.id = id then { d with batteryLevel := some v, lastSeen := some now }
              else d }) := by
  cases batteryLevel with
  | none => simp [putDeviceBattery]
  | some v =>
      by_cases h : v < 0 ∨ 100 < v
      · refine ⟨?_, ?_, ?_⟩
        · simp only [putDeviceBattery, if_pos h]
          simp [h]
        · intro _
          simp [putDeviceBattery, h]
        · intro v' hv' hcontra
          cases hv'
          exact absurd h hcontra
      · refine ⟨?_, ?_, ?_⟩
        · simp [putDeviceBattery, h]
        · intro hbad
          simp [putDeviceBattery, h] at hbad
        · intro v' hv' _
          cases hv'
          simp [putDeviceBattery, h]

/-- Witness for C9: a valid battery level 50 at time 7 updates device 1's
battery and last-seen stamp. -/
theorem battery_update_validation_and_effect_witness :
    (putDeviceBattery 7 stSq 1 (some 50)).2 =
      { stSq with devices := stSq.devices.map fun d =>
          if d.id = 1 then { d with batteryLevel := some (50 : ℚ), lastSeen := some (7 : ℚ) }
          else d } :=
  (battery_update_validation_and_effect 7 stSq 1 (some 50)).2.2 50 rfl (by norm_num)

/-- C10: the haversine distance is symmetric in its two arguments, so
circle containment does not depend on which point is the device position
and which is the center. -/
theorem getDistance_comm (p1 p2 : LatLng) : getDistance p1 p2 = getDistance p2 p1 := by
  rw [getDistance_eq, getDistance_eq, havA_comm]

end GeoTracker
